import Mathlib

/-!
Shallow embedding of `plane/app/views/base.py` (csivitu/plane): the shared
request-handling base layer — `TimezoneMixin`, `BaseViewSet` and `BaseAPIView`.

Conventions of the embedding:
* Python strings are Lean `String`s; an absent `kwargs` entry is `none`,
  Python truthiness of an optional string is "present and non-empty".
* Django's `ProjectIdentifier.objects.filter(workspace__slug=?, name=?)`
  is modelled by a `Store` of rows and a `lookup` that keeps the first match.
* Side effects that the specification talks about (time-zone activation and
  deactivation, `log_exception` calls, handler invocation, identifier-store
  queries) are recorded in an explicit event trace.
* Exceptions are the closed error taxonomy of the module
  (`IntegrityError`, `ValidationError`, `ObjectDoesNotExist`, `KeyError`,
  anything else); fallible code returns `Except Exc`.
-/

/-! ### Python `uuid.UUID(string)` textual parsing

`BaseViewSet.is_uuid` calls `uuid.UUID(str(value))` and reports whether it
raised `ValueError`.  CPython's `uuid.UUID` constructor, given a hex string,
does exactly:
  `hex = hex.replace('urn:', '').replace('uuid:', '')`
  `hex = hex.strip('{}').replace('-', '')`
  `if len(hex) != 32: raise ValueError`
  `int(hex, 16)`
(The subsequent 128-bit range check can never fail here: at most 32 hex
digits remain and every minus sign was removed.)  We model `replace` (all
uses delete the pattern), `strip`, and the grammar accepted by
`int(s, 16)` — optional surrounding whitespace, optional sign, optional
`0x`/`0X` prefix, hex digits with single underscores between digits (an
underscore may also directly follow the prefix).  Only the ASCII digit and
whitespace repertoire is modelled. -/

def isHexDigitPy (c : Char) : Bool :=
  ('0' ≤ c && c ≤ '9') || ('a' ≤ c && c ≤ 'f') || ('A' ≤ c && c ≤ 'F')

/-- Continuation of a hex-digit run: digits, with single underscores allowed
only between digits (not trailing, not doubled). -/
def hexTail : List Char → Bool
  | [] => true
  | ['_'] => false
  | '_' :: c :: rest => isHexDigitPy c && hexTail rest
  | c :: rest => isHexDigitPy c && hexTail rest

/-- At least one hex digit, then `hexTail`. -/
def hexDigits1 : List Char → Bool
  | [] => false
  | c :: rest => isHexDigitPy c && hexTail rest

/-- The part of a base-16 integer literal after whitespace and sign:
optional `0x`/`0X` prefix (an underscore may follow it), then digits. -/
def pyHexBody : List Char → Bool
  | '0' :: 'x' :: '_' :: rest => hexDigits1 rest
  | '0' :: 'x' :: rest => hexDigits1 rest
  | '0' :: 'X' :: '_' :: rest => hexDigits1 rest
  | '0' :: 'X' :: rest => hexDigits1 rest
  | l => hexDigits1 l

def isPySpace (c : Char) : Bool :=
  c = ' ' || c = '\t' || c = '\n' || c = '\x0b' || c = '\x0c' || c = '\x0d'

/-- Does Python's `int(s, 16)` accept `s`? -/
def pyIntLit16 (s : String) : Bool :=
  let l := ((s.data.dropWhile isPySpace).reverse.dropWhile isPySpace).reverse
  match l with
  | '+' :: rest => pyHexBody rest
  | '-' :: rest => pyHexBody rest
  | l2 => pyHexBody l2

/-- Delete every (non-overlapping, left-to-right) occurrence of the pattern
`p :: ps`, scanning like Python `str.replace(pat, '')`.  The fuel is the
length of the scanned list; each step consumes at least one character. -/
def removeAllAux (p : Char) (ps : List Char) : Nat → List Char → List Char
  | 0, l => l
  | _ + 1, [] => []
  | fuel + 1, c :: rest =>
    if (p :: ps).isPrefixOf (c :: rest) then
      removeAllAux p ps fuel (rest.drop ps.length)
    else
      c :: removeAllAux p ps fuel rest

/-- Python `s.replace(pat, '')` for a non-empty pattern. -/
def pyRemoveAll (pat : String) (s : String) : String :=
  match pat.data with
  | [] => s
  | p :: ps => String.mk (removeAllAux p ps s.data.length s.data)

def isBraceChar (c : Char) : Bool := c = '\x7b' || c = '\x7d'

/-- Python `s.strip('\x7b\x7d')`: remove every leading and trailing brace. -/
def pyStripBraces (s : String) : String :=
  String.mk (((s.data.dropWhile isBraceChar).reverse.dropWhile isBraceChar).reverse)

/-- Does `uuid.UUID(s)` succeed on the string `s`?  Mirrors the CPython
constructor steps quoted above. -/
def pyUUIDCanParse (s : String) : Bool :=
  let h1 := pyRemoveAll "uuid:" (pyRemoveAll "urn:" s)
  let h2 := pyRemoveAll "-" (pyStripBraces h1)
  h2.length == 32 && pyIntLit16 h2

/-! ### Data model -/

/-- The closed error taxonomy handled by the module (spec §7): the four
`isinstance`-tested Django/Python exception kinds, plus `other` for any
unclassified exception type (`tag` distinguishes distinct such types).
Framework `APIException`s rendered by rest_framework's own default handler
belong to the external authentication/permission collaborators and are
outside this taxonomy. -/
inductive Exc where
  | integrityError
  | validationError
  | objectDoesNotExist
  | keyError
  | other (tag : String)
deriving DecidableEq

/-- A structured wire response: status code plus a JSON-object body
modelled as an association list. -/
structure Response where
  status : Nat
  body : List (String × String)
deriving DecidableEq

/-- Observable side effects of request processing, in order. -/
inductive Event where
  | storeLookup
  | tzActivate (zone : String)
  | tzDeactivate
  | handlerInvoked
  | log
deriving DecidableEq

def isTz : Event → Bool
  | Event.tzActivate _ => true
  | Event.tzDeactivate => true
  | _ => false

/-- One row of the `ProjectIdentifier` relation: workspace slug
(`workspace__slug`, nullable like the Django lookup value), `name`, and the
canonical `project_id`. -/
structure Entry where
  slug : Option String
  name : String
  project_id : String
deriving DecidableEq

structure Store where
  entries : List Entry
deriving DecidableEq

/-- `ProjectIdentifier.objects.filter(workspace__slug=slug, name=name)
.values("project_id").first()`. -/
def Store.lookup (store : Store) (slug : Option String) (name : String) :
    Option String :=
  ((store.entries.filter (fun e => e.slug == slug && e.name == name)).head?).map
    (fun e => e.project_id)

/-- `request.user`: authentication flag and the user's time-zone field. -/
structure Principal where
  is_authenticated : Bool
  user_timezone : String
deriving DecidableEq

/-- The URL kwargs consulted by the module: `slug`, `project_id`, `issue_id`. -/
structure Kwargs where
  slug : Option String
  project_id : Option String
  issue_id : Option String
deriving DecidableEq

/-- The query parameters consulted by the `fields` / `expand` accessors;
`request.GET.get(name, "")` yields `""` for an absent parameter, so each is
modelled as the resulting string. -/
structure RequestGET where
  fieldsParam : String
  expandParam : String

/-- Python truthiness of an optional string (`None` and `""` are falsy). -/
def pyTruthy : Option String → Bool
  | none => false
  | some s => s != ""

/-- Either a structured response or — what the source's `dispatch` actually
returns on its outer failure path — the raw exception object. -/
inductive DispatchResult where
  | response (r : Response)
  | rawExc (e : Exc)
deriving DecidableEq

/-! ### Source functions (base.py) -/

/-- `BaseViewSet.is_uuid` (base.py lines 64-70): `uuid.UUID(str(value))`
inside `try`, returning whether no `ValueError` was raised.  The argument is
already a string here, so `str(value)` is the identity. -/
def BaseViewSet.is_uuid (value : String) : Bool :=
  pyUUIDCanParse value

/-- `BaseViewSet.get_project_id` (base.py lines 72-88).  `self.workspace_slug`
is `kwargs.get("slug", None)` and is passed explicitly, as is the
`ProjectIdentifier` store.  Returns the trace of store lookups together with
the result (`Except.error` models a raised exception). -/
def BaseViewSet.get_project_id (store : Store) (slug : Option String)
    (project_id : Option String) : List Event × Except Exc (Option String) :=
  match project_id with
  | some s =>
    -- `if project_id and not self.is_uuid(project_id):`
    if s != "" && !(BaseViewSet.is_uuid s) then
      match Store.lookup store slug s with
      | some c => ([Event.storeLookup], Except.ok (some c))
      | none => ([Event.storeLookup], Except.error Exc.objectDoesNotExist)
    else
      ([], Except.ok (some s))
  | none => ([], Except.ok none)

/-- `BaseViewSet.get_issue_id` (base.py lines 90-94): the conditional's body
is `pass`, so every value is returned unchanged. -/
def BaseViewSet.get_issue_id (issue_id : String) : String :=
  if issue_id != "" && !(BaseViewSet.is_uuid issue_id) then
    issue_id
  else
    issue_id

/-- `TimezoneMixin.initial` (base.py lines 36-41).  `super().initial` runs
the framework's authentication/permission/throttle checks; its outcome is the
`frameworkInitial` parameter (`some e` models it raising `e`).  When it
passes, the mixin activates the user's zone if authenticated, else
deactivates.  `zoneinfo.ZoneInfo` raises `ZoneInfoNotFoundError` — a
`KeyError` subclass — on an unknown zone name, modelled by `zoneOk`. -/
def TimezoneMixin.initial (frameworkInitial : Option Exc)
    (zoneOk : String → Bool) (user : Principal) : List Event × Option Exc :=
  match frameworkInitial with
  | some e => ([], some e)
  | none =>
    if user.is_authenticated then
      if zoneOk user.user_timezone then
        ([Event.tzActivate user.user_timezone], none)
      else
        ([], some Exc.keyError)
    else
      ([Event.tzDeactivate], none)

/-- rest_framework's default `APIView.handle_exception` (the `super()` call
inside both overridden `handle_exception`s): it renders framework
`APIException`s / `Http404` / `PermissionDenied` and re-raises everything
else.  No kind of the module's error taxonomy `Exc` is such a framework
exception, so over this domain it always re-raises, modelled as `none`. -/
def frameworkHandleException (_e : Exc) : Option Response := none

/-- `BaseViewSet.handle_exception` (base.py lines 105-148): try the
framework handler, and on re-raise classify by the `isinstance` chain.
The DEBUG-gated `print` of the traceback is diagnostic-only and recorded as
no event; `log_exception` calls are recorded as `Event.log`. -/
def BaseViewSet.handle_exception (e : Exc) : List Event × Response :=
  match frameworkHandleException e with
  | some r => ([], r)
  | none =>
    match e with
    | Exc.integrityError =>
      ([], { status := 400, body := [("error", "The payload is not valid")] })
    | Exc.validationError =>
      ([], { status := 400, body := [("error", "Please provide valid detail")] })
    | Exc.objectDoesNotExist =>
      ([], { status := 404, body := [("error", "The required object does not exist.")] })
    | Exc.keyError =>
      ([Event.log], { status := 400, body := [("error", "The required key does not exist.")] })
    | Exc.other _ =>
      ([Event.log], { status := 500, body := [("error", "Something went wrong please try again later")] })

/-- `BaseAPIView.handle_exception` (base.py lines 232-269): same chain,
except that the `KeyError` branch has no `log_exception` call. -/
def BaseAPIView.handle_exception (e : Exc) : List Event × Response :=
  match frameworkHandleException e with
  | some r => ([], r)
  | none =>
    match e with
    | Exc.integrityError =>
      ([], { status := 400, body := [("error", "The payload is not valid")] })
    | Exc.validationError =>
      ([], { status := 400, body := [("error", "Please provide valid detail")] })
    | Exc.objectDoesNotExist =>
      ([], { status := 404, body := [("error", "The required object does not exist.")] })
    | Exc.keyError =>
      ([], { status := 400, body := [("error", "The required key does not exist.")] })
    | Exc.other _ =>
      ([Event.log], { status := 500, body := [("error", "Something went wrong please try again later")] })

/-- rest_framework's `APIView.dispatch` (the `super().dispatch` call): it
runs `self.initial` (here `TimezoneMixin.initial`) and then the resolved
handler inside a `try`, routing any raised exception through
`self.handle_exception` — the overridden classifier passed in as
`handleExc`.  The external resource handler's outcome is the `handler`
parameter; invoking it is recorded as `Event.handlerInvoked`. -/
def APIView.dispatch (frameworkInitial : Option Exc) (zoneOk : String → Bool)
    (user : Principal) (handler : Except Exc Response)
    (handleExc : Exc → List Event × Response) : List Event × Response :=
  match TimezoneMixin.initial frameworkInitial zoneOk user with
  | (evs, some e) =>
    let (evs2, r) := handleExc e
    (evs ++ evs2, r)
  | (evs, none) =>
    match handler with
    | Except.ok r => (evs ++ [Event.handlerInvoked], r)
    | Except.error e =>
      let (evs2, r) := handleExc e
      (evs ++ Event.handlerInvoked :: evs2, r)

/-- The identifier-rewriting prelude of `BaseViewSet.dispatch`
(base.py lines 152-159): rewrite `kwargs["project_id"]` through
`get_project_id` when truthy, then `kwargs["issue_id"]` through
`get_issue_id` when truthy. -/
def BaseViewSet.resolveKwargs (store : Store) (kw : Kwargs) :
    List Event × Except Exc Kwargs :=
  let step1 : List Event × Except Exc Kwargs :=
    if pyTruthy kw.project_id then
      match BaseViewSet.get_project_id store kw.slug kw.project_id with
      | (evs, Except.ok pid) => (evs, Except.ok { kw with project_id := pid })
      | (evs, Except.error e) => (evs, Except.error e)
    else
      ([], Except.ok kw)
  match step1 with
  | (evs, Except.error e) => (evs, Except.error e)
  | (evs, Except.ok kw1) =>
    if pyTruthy kw1.issue_id then
      (evs, Except.ok { kw1 with issue_id := kw1.issue_id.map BaseViewSet.get_issue_id })
    else
      (evs, Except.ok kw1)

/-- `BaseViewSet.dispatch` (base.py lines 150-175): resolve identifiers,
delegate to `super().dispatch`, and — in the `except` block — compute
`self.handle_exception(exc)` but `return exc`: the raw exception object, not
the computed response (line 175).  The DEBUG-gated query-count `print` has
no observable effect and is not modelled. -/
def BaseViewSet.dispatch (store : Store) (kw : Kwargs)
    (frameworkInitial : Option Exc) (zoneOk : String → Bool) (user : Principal)
    (handler : Except Exc Response) : List Event × DispatchResult :=
  match BaseViewSet.resolveKwargs store kw with
  | (evs, Except.error e) =>
    let (evs2, _response) := BaseViewSet.handle_exception e
    (evs ++ evs2, DispatchResult.rawExc e)
  | (evs, Except.ok _kw2) =>
    let (evs2, r) :=
      APIView.dispatch frameworkInitial zoneOk user handler
        BaseViewSet.handle_exception
    (evs ++ evs2, DispatchResult.response r)

/-- `BaseAPIView.dispatch` (base.py lines 271-285): no identifier rewriting;
the framework dispatch already routes every exception through the total
`BaseAPIView.handle_exception`, so the outer `except` (with its own
`return exc`) is unreachable and the result is always a response. -/
def BaseAPIView.dispatch (frameworkInitial : Option Exc)
    (zoneOk : String → Bool) (user : Principal)
    (handler : Except Exc Response) : List Event × DispatchResult :=
  let (evs, r) :=
    APIView.dispatch frameworkInitial zoneOk user handler
      BaseAPIView.handle_exception
  (evs, DispatchResult.response r)

/-- Python `s.split(",")` (no maxsplit): `"".split(",") == [""]`. -/
def pySplitCommaAux : List Char → List Char → List String
  | [], acc => [String.mk acc.reverse]
  | c :: rest, acc =>
    if c = ',' then
      String.mk acc.reverse :: pySplitCommaAux rest []
    else
      pySplitCommaAux rest (c :: acc)

def pySplitComma (s : String) : List String :=
  pySplitCommaAux s.data []

/-- `BaseViewSet.fields` (base.py lines 190-197): split the `fields` query
parameter on commas, keep truthy (non-empty) entries, and return the list if
non-empty else `None`. -/
def BaseViewSet.fields (g : RequestGET) : Option (List String) :=
  let fields := (pySplitComma g.fieldsParam).filter (fun f => f != "")
  if fields.isEmpty then none else some fields

/-- `BaseViewSet.expand` (base.py lines 199-206). -/
def BaseViewSet.expand (g : RequestGET) : Option (List String) :=
  let expand := (pySplitComma g.expandParam).filter (fun f => f != "")
  if expand.isEmpty then none else some expand

/-- `BaseAPIView.fields` (base.py lines 295-302): textually identical to the
viewset variant. -/
def BaseAPIView.fields (g : RequestGET) : Option (List String) :=
  let fields := (pySplitComma g.fieldsParam).filter (fun f => f != "")
  if fields.isEmpty then none else some fields

/-- `BaseAPIView.expand` (base.py lines 304-311). -/
def BaseAPIView.expand (g : RequestGET) : Option (List String) :=
  let expand := (pySplitComma g.expandParam).filter (fun f => f != "")
  if expand.isEmpty then none else some expand

/-- The error-classification table of spec §4.3, written from the spec's
words: (status, message) per error kind, for comparison with the source's
classifiers. -/
def specClassify : Exc → Nat × String
  | Exc.integrityError => (400, "The payload is not valid")
  | Exc.validationError => (400, "Please provide valid detail")
  | Exc.objectDoesNotExist => (404, "The required object does not exist.")
  | Exc.keyError => (400, "The required key does not exist.")
  | Exc.other _ => (500, "Something went wrong please try again later")

/-! ### Helper lemmas -/

lemma lookup_isolated (store store2 : Store) (slug : Option String)
    (name : String)
    (hfilter : store2.entries.filter (fun e => e.slug == slug)
             = store.entries.filter (fun e => e.slug == slug)) :
    Store.lookup store2 slug name = Store.lookup store slug name := by
  have key : ∀ l : List Entry,
      l.filter (fun e => e.slug == slug && e.name == name)
        = (l.filter (fun e => e.slug == slug)).filter
            (fun e => e.name == name) := by
    intro l
    rw [List.filter_filter]
    congr 1
    funext e
    exact Bool.and_comm _ _
  unfold Store.lookup
  rw [key, key, hfilter]

lemma get_project_id_trace (store : Store) (slug : Option String)
    (key : Option String) :
    (BaseViewSet.get_project_id store slug key).1 = []
  ∨ (BaseViewSet.get_project_id store slug key).1 = [Event.storeLookup] := by
  cases key with
  | none => exact Or.inl rfl
  | some s =>
    by_cases hc : (s != "" && !(BaseViewSet.is_uuid s)) = true
    · simp only [BaseViewSet.get_project_id, if_pos hc]
      cases hl : Store.lookup store slug s <;> simp [hl]
    · simp only [BaseViewSet.get_project_id]
      rw [if_neg hc]
      exact Or.inl rfl

lemma resolveKwargs_trace (store : Store) (kw : Kwargs) :
    (BaseViewSet.resolveKwargs store kw).1 = []
  ∨ (BaseViewSet.resolveKwargs store kw).1 = [Event.storeLookup] := by
  have hg := get_project_id_trace store kw.slug kw.project_id
  unfold BaseViewSet.resolveKwargs
  rcases hge : BaseViewSet.get_project_id store kw.slug kw.project_id
    with ⟨evs, res⟩
  rw [hge] at hg
  by_cases hp : pyTruthy kw.project_id = true
  · rw [if_pos hp]
    cases res with
    | error e => simpa using hg
    | ok pid =>
      by_cases hi : pyTruthy pid = true
      · simp only []
        split <;> simpa using hg
      · simp only []
        split <;> simpa using hg
  · rw [if_neg hp]
    by_cases hi : pyTruthy kw.issue_id = true
    · simp [hi]
    · simp [hi]

lemma handle_exception_trace_VS (e : Exc) :
    (BaseViewSet.handle_exception e).1 = []
  ∨ (BaseViewSet.handle_exception e).1 = [Event.log] := by
  cases e <;> simp [BaseViewSet.handle_exception, frameworkHandleException]

lemma tzInitial_cases (fi : Option Exc) (zk : String → Bool) (u : Principal) :
    (∃ e, TimezoneMixin.initial fi zk u = ([], some e))
  ∨ (∃ ev, isTz ev = true ∧ TimezoneMixin.initial fi zk u = ([ev], none)) := by
  unfold TimezoneMixin.initial
  cases fi with
  | some e => exact Or.inl ⟨e, rfl⟩
  | none =>
    by_cases ha : u.is_authenticated = true
    · by_cases hz : zk u.user_timezone = true
      · exact Or.inr ⟨Event.tzActivate u.user_timezone, rfl, by simp [ha, hz]⟩
      · exact Or.inl ⟨Exc.keyError, by simp [ha, hz]⟩
    · exact Or.inr ⟨Event.tzDeactivate, rfl, by simp [ha]⟩

/-! ### Claim theorems -/

/-- C2: for every error of the taxonomy fed to `handle_exception`, the
first-match `isinstance` chain of both variants yields exactly the
status/message pair of the spec §4.3 table (`specClassify`), and the failure
body is always the single-key object with key `"error"`.  Both classifiers
are total Lean functions, so classification itself cannot fail. -/
theorem C2_classification_table (e : Exc) :
    ((BaseViewSet.handle_exception e).2.status = (specClassify e).1
  ∧ (BaseViewSet.handle_exception e).2.body = [("error", (specClassify e).2)])
  ∧ ((BaseAPIView.handle_exception e).2.status = (specClassify e).1
  ∧ (BaseAPIView.handle_exception e).2.body = [("error", (specClassify e).2)]) := by
  cases e <;>
    simp [BaseViewSet.handle_exception, BaseAPIView.handle_exception,
      frameworkHandleException, specClassify]

/-- C3: a non-empty, non-UUID `project_id` is looked up in the
`ProjectIdentifier` store scoped by the workspace slug: a mapping yields the
canonical id, no mapping raises `ObjectDoesNotExist`, and the result depends
only on the rows of the request's own tenant (tenant isolation). -/
theorem C3_alias_resolution (store : Store) (slug : Option String) (s : String)
    (h1 : s ≠ "") (h2 : BaseViewSet.is_uuid s = false) :
    (∀ c, Store.lookup store slug s = some c →
      BaseViewSet.get_project_id store slug (some s)
        = ([Event.storeLookup], Except.ok (some c)))
  ∧ (Store.lookup store slug s = none →
      BaseViewSet.get_project_id store slug (some s)
        = ([Event.storeLookup], Except.error Exc.objectDoesNotExist))
  ∧ (∀ store2 : Store,
      store2.entries.filter (fun e => e.slug == slug)
        = store.entries.filter (fun e => e.slug == slug) →
      BaseViewSet.get_project_id store2 slug (some s)
        = BaseViewSet.get_project_id store slug (some s)) := by
  have hcond : (s != "" && !(BaseViewSet.is_uuid s)) = true := by
    simp [h2, bne_iff_ne, h1]
  refine ⟨?_, ?_, ?_⟩
  · intro c hc
    simp only [BaseViewSet.get_project_id, if_pos hcond, hc]
  · intro hc
    simp only [BaseViewSet.get_project_id, if_pos hcond, hc]
  · intro store2 hf
    simp only [BaseViewSet.get_project_id, if_pos hcond,
      lookup_isolated store store2 slug s hf]

/-- Witness for C3 at the spec §8 example: the alias `"ENG"` under tenant
`"acme"` resolves to the mapped canonical UUID even though the same alias
text exists under tenant `"other"` with a different id. -/
theorem C3_alias_resolution_witness :
    BaseViewSet.get_project_id
      (Store.mk [{ slug := some "acme", name := "ENG",
                   project_id := "11111111-1111-1111-1111-111111111111" },
                 { slug := some "other", name := "ENG",
                   project_id := "22222222-2222-2222-2222-222222222222" }])
      (some "acme") (some "ENG")
      = ([Event.storeLookup],
         Except.ok (some "11111111-1111-1111-1111-111111111111")) :=
  (C3_alias_resolution _ (some "acme") "ENG" (by decide) (by decide)).1 _
    (by decide)

/-- C4: an absent or empty `project_id`, and one already in canonical UUID
textual form, is returned unchanged with an empty event trace — in
particular no `storeLookup` event, i.e. no store access. -/
theorem C4_short_circuit (store : Store) (slug : Option String)
    (key : Option String)
    (h : key = none ∨ key = some ""
       ∨ ∃ s, key = some s ∧ BaseViewSet.is_uuid s = true) :
    BaseViewSet.get_project_id store slug key = ([], Except.ok key) := by
  rcases h with rfl | rfl | ⟨s, rfl, hs⟩
  · rfl
  · rfl
  · have hcond : (s != "" && !(BaseViewSet.is_uuid s)) = false := by
      simp [hs]
    simp only [BaseViewSet.get_project_id, hcond, Bool.false_eq_true,
      if_false]

/-- Witness for C4: a canonical UUID passes through unchanged without a
lookup, even when the store has a row whose alias is that very string. -/
theorem C4_short_circuit_witness :
    BaseViewSet.get_project_id
      (Store.mk [{ slug := some "acme",
                   name := "11111111-1111-1111-1111-111111111111",
                   project_id := "33333333-3333-3333-3333-333333333333" }])
      (some "acme") (some "11111111-1111-1111-1111-111111111111")
      = ([], Except.ok (some "11111111-1111-1111-1111-111111111111")) :=
  C4_short_circuit _ (some "acme") _
    (Or.inr (Or.inr ⟨"11111111-1111-1111-1111-111111111111", rfl, by decide⟩))

/-- C6: when the framework pre-checks pass, `TimezoneMixin.initial`
activates exactly the authenticated principal's preferred zone, and
explicitly deactivates (resets to the default) for an unauthenticated
principal. -/
theorem C6_locale_activation (zoneOk : String → Bool) (u : Principal)
    (hz : u.is_authenticated = true → zoneOk u.user_timezone = true) :
    (u.is_authenticated = true →
      TimezoneMixin.initial none zoneOk u
        = ([Event.tzActivate u.user_timezone], none))
  ∧ (u.is_authenticated = false →
      TimezoneMixin.initial none zoneOk u = ([Event.tzDeactivate], none)) := by
  constructor
  · intro ha
    simp [TimezoneMixin.initial, ha, hz ha]
  · intro ha
    simp [TimezoneMixin.initial, ha]

/-- Witness for C6 at a concrete authenticated principal with zone
`"Asia/Kolkata"`. -/
theorem C6_locale_activation_witness :
    TimezoneMixin.initial none (fun z => z == "Asia/Kolkata")
      { is_authenticated := true, user_timezone := "Asia/Kolkata" }
      = ([Event.tzActivate "Asia/Kolkata"], none) :=
  (C6_locale_activation (fun z => z == "Asia/Kolkata")
    { is_authenticated := true, user_timezone := "Asia/Kolkata" }
    (fun _ => by decide)).1 rfl

/-- C7 (counterexample): the claim says both variants log a missing-key
error, but `BaseAPIView.handle_exception`'s `KeyError` branch contains no
`log_exception` call — its trace on `KeyError` has no log event. -/
theorem C7_counterexample :
    Event.log ∉ (BaseAPIView.handle_exception Exc.keyError).1 := by decide

/-- C7 (amended): `BaseViewSet.handle_exception` logs exactly the
missing-key and unclassified errors; `BaseAPIView.handle_exception` logs
only unclassified errors; integrity, validation and not-found errors are
never logged by either variant. -/
theorem C7_logging_policy (e : Exc) :
    (Event.log ∈ (BaseViewSet.handle_exception e).1
      ↔ (e = Exc.keyError ∨ ∃ t, e = Exc.other t))
  ∧ (Event.log ∈ (BaseAPIView.handle_exception e).1 ↔ ∃ t, e = Exc.other t) := by
  cases e <;>
    simp [BaseViewSet.handle_exception, BaseAPIView.handle_exception,
      frameworkHandleException]

/-- C8: the `fields` / `expand` accessors of both variants split the query
parameter on commas, drop empty entries preserving order (the kept list is a
sublist of the split and contains no empty string), return `none` when
nothing remains — so `"a,b,,c"` yields `["a","b","c"]`, the empty parameter
yields `none`, and `some []` ("show nothing") is never produced, keeping it
distinguishable from `none` ("no restriction"). -/
theorem C8_fields_parsing :
    (BaseViewSet.fields { fieldsParam := "a,b,,c", expandParam := "" }
        = some ["a", "b", "c"]
  ∧ BaseViewSet.fields { fieldsParam := "", expandParam := "" } = none
  ∧ BaseAPIView.fields { fieldsParam := "a,b,,c", expandParam := "" }
        = some ["a", "b", "c"]
  ∧ BaseAPIView.fields { fieldsParam := "", expandParam := "" } = none
  ∧ BaseViewSet.expand { fieldsParam := "", expandParam := "a,b,,c" }
        = some ["a", "b", "c"]
  ∧ BaseAPIView.expand { fieldsParam := "", expandParam := "a,b,,c" }
        = some ["a", "b", "c"]
  ∧ BaseViewSet.expand { fieldsParam := "", expandParam := "" } = none
  ∧ BaseAPIView.expand { fieldsParam := "", expandParam := "" } = none)
  ∧ (∀ g : RequestGET,
      BaseViewSet.fields g ≠ some [] ∧ BaseAPIView.fields g ≠ some []
    ∧ BaseViewSet.expand g ≠ some [] ∧ BaseAPIView.expand g ≠ some [])
  ∧ (∀ (g : RequestGET) (l : List String), BaseViewSet.fields g = some l →
      List.Sublist l (pySplitComma g.fieldsParam) ∧ ∀ f ∈ l, f ≠ "") := by
  refine ⟨by decide, ?_, ?_⟩
  · intro g
    refine ⟨?_, ?_, ?_, ?_⟩ <;>
      simp only [BaseViewSet.fields, BaseAPIView.fields,
        BaseViewSet.expand, BaseAPIView.expand] <;>
      split <;>
      simp_all [List.isEmpty_iff]
  · intro g l h
    simp only [BaseViewSet.fields] at h
    split at h
    · exact absurd h (by simp)
    · rw [Option.some_inj] at h
      subst h
      refine ⟨List.filter_sublist _, ?_⟩
      intro f hf
      have := List.of_mem_filter hf
      simpa [bne_iff_ne] using this

/-- Witness for C8's universally quantified parts at the spec's example
parameter value. -/
theorem C8_fields_parsing_witness :
    List.Sublist ["a", "b", "c"]
        (pySplitComma "a,b,,c")
      ∧ ∀ f ∈ ["a", "b", "c"], f ≠ "" :=
  C8_fields_parsing.2.2 { fieldsParam := "a,b,,c", expandParam := "" }
    ["a", "b", "c"] (by decide)

/-- C9: `get_issue_id` is an explicit pass-through — the non-UUID branch's
body is `pass` — so every value, canonical or not, is returned unchanged and
no failure is possible. -/
theorem C9_issue_id_passthrough (issue_id : String) :
    BaseViewSet.get_issue_id issue_id = issue_id := by
  unfold BaseViewSet.get_issue_id
  split <;> rfl

/-- C10: `is_uuid` accepts every textual form the Python `uuid.UUID`
constructor accepts — including 32 hex digits without hyphens, the braced
form and the URN form — and `get_project_id` treats any accepted string as
already canonical, returning it unchanged with no store lookup. -/
theorem C10_uuid_textual_forms :
    (BaseViewSet.is_uuid "0123456789abcdef0123456789abcdef" = true
  ∧ BaseViewSet.is_uuid "\x7b01234567-89ab-cdef-0123-456789abcdef\x7d" = true
  ∧ BaseViewSet.is_uuid "urn:uuid:01234567-89ab-cdef-0123-456789abcdef" = true)
  ∧ ∀ (store : Store) (slug : Option String) (s : String),
      BaseViewSet.is_uuid s = true →
      BaseViewSet.get_project_id store slug (some s)
        = ([], Except.ok (some s)) := by
  refine ⟨⟨by decide, by decide, by decide⟩, ?_⟩
  intro store slug s hs
  have hcond : (s != "" && !(BaseViewSet.is_uuid s)) = false := by
    simp [hs]
  simp only [BaseViewSet.get_project_id, hcond, Bool.false_eq_true, if_false]

/-- Witness for C10: the unhyphenated 32-hex-digit form passes through
`get_project_id` unchanged even over a non-empty store. -/
theorem C10_uuid_textual_forms_witness :
    BaseViewSet.get_project_id
      (Store.mk [{ slug := some "acme", name := "ENG",
                   project_id := "44444444-4444-4444-4444-444444444444" }])
      (some "acme") (some "0123456789abcdef0123456789abcdef")
      = ([], Except.ok (some "0123456789abcdef0123456789abcdef")) :=
  C10_uuid_textual_forms.2 _ (some "acme") _ (by decide)

/-- C1 (code bug, base.py line 175): on the identifier-resolution failure
path, `BaseViewSet.dispatch` computes the structured 404 response through
`handle_exception` but then executes `return exc`, yielding the raw
`ObjectDoesNotExist` exception object instead of a structured response —
here, a request for alias `"ENG"` under tenant `"acme"` against an empty
identifier store. -/
theorem C1_dispatch_returns_raw_exception :
    BaseViewSet.dispatch (Store.mk [])
      { slug := some "acme", project_id := some "ENG", issue_id := none }
      none (fun _ => true)
      { is_authenticated := true, user_timezone := "UTC" }
      (Except.ok { status := 200, body := [] })
      = ([Event.storeLookup], DispatchResult.rawExc Exc.objectDoesNotExist) := by
  decide

/-- C5 (counterexample): a request whose identifier resolution fails never
reaches `TimezoneMixin.initial` — `BaseViewSet.dispatch` resolves
identifiers before `super().dispatch()` — so its trace contains no time-zone
activation or deactivation at all, contradicting "the time-zone reset
happens even on the failure path". -/
theorem C5_counterexample :
    ¬ ∃ ev ∈ (BaseViewSet.dispatch (Store.mk [])
        { slug := some "other", project_id := some "ENG", issue_id := none }
        none (fun _ => true)
        { is_authenticated := true, user_timezone := "UTC" }
        (Except.ok { status := 200, body := [] })).1,
      isTz ev = true := by
  decide

/-- C5 (amended): whenever the resource handler is invoked, a time-zone
step (activate or deactivate) has already run — it precedes the
`handlerInvoked` event in the trace.  On paths that abort before handler
invocation (identifier-resolution failure, framework pre-check failure,
invalid zone name) neither runs. -/
theorem C5_locale_before_handler (store : Store) (kw : Kwargs)
    (fi : Option Exc) (zk : String → Bool) (u : Principal)
    (handler : Except Exc Response)
    (h : Event.handlerInvoked
        ∈ (BaseViewSet.dispatch store kw fi zk u handler).1) :
    ∃ l1 l2, (BaseViewSet.dispatch store kw fi zk u handler).1
        = l1 ++ Event.handlerInvoked :: l2 ∧ ∃ ev ∈ l1, isTz ev = true := by
  rcases hr : BaseViewSet.resolveKwargs store kw with ⟨evs, res⟩
  have hevs : evs = [] ∨ evs = [Event.storeLookup] := by
    have h2 := resolveKwargs_trace store kw
    rw [hr] at h2
    exact h2
  cases res with
  | error e =>
    exfalso
    rcases hhe : BaseViewSet.handle_exception e with ⟨evs2, r⟩
    have hevs2 : evs2 = [] ∨ evs2 = [Event.log] := by
      have h3 := handle_exception_trace_VS e
      rw [hhe] at h3
      exact h3
    have hd : (BaseViewSet.dispatch store kw fi zk u handler).1
        = evs ++ evs2 := by
      simp only [BaseViewSet.dispatch, hr, hhe]
    rw [hd] at h
    rcases hevs with rfl | rfl <;> rcases hevs2 with rfl | rfl <;> simp at h
  | ok kw2 =>
    rcases tzInitial_cases fi zk u with ⟨e2, he⟩ | ⟨ev, hev, he⟩
    · exfalso
      rcases hhe : BaseViewSet.handle_exception e2 with ⟨evs2, r⟩
      have hevs2 : evs2 = [] ∨ evs2 = [Event.log] := by
        have h3 := handle_exception_trace_VS e2
        rw [hhe] at h3
        exact h3
      have hd : (BaseViewSet.dispatch store kw fi zk u handler).1
          = evs ++ evs2 := by
        simp only [BaseViewSet.dispatch, APIView.dispatch, hr, he, hhe]
        simp
      rw [hd] at h
      rcases hevs with rfl | rfl <;> rcases hevs2 with rfl | rfl <;> simp at h
    · cases handler with
      | ok r =>
        have hd : (BaseViewSet.dispatch store kw fi zk u (Except.ok r)).1
            = (evs ++ [ev]) ++ Event.handlerInvoked :: [] := by
          simp only [BaseViewSet.dispatch, APIView.dispatch, hr, he]
          simp
        exact ⟨evs ++ [ev], [], hd, ev, by simp, hev⟩
      | error e2 =>
        rcases hhe : BaseViewSet.handle_exception e2 with ⟨evs2, r⟩
        have hd : (BaseViewSet.dispatch store kw fi zk u (Except.error e2)).1
            = (evs ++ [ev]) ++ Event.handlerInvoked :: evs2 := by
          simp only [BaseViewSet.dispatch, APIView.dispatch, hr, he, hhe]
          simp
        exact ⟨evs ++ [ev], evs2, hd, ev, by simp, hev⟩

/-- Witness for C5 (amended): a fully successful request — alias resolved,
framework checks passed, handler invoked — whose trace shows the activation
before the handler event. -/
theorem C5_locale_before_handler_witness :
    ∃ l1 l2,
      (BaseViewSet.dispatch
        (Store.mk [{ slug := some "acme", name := "ENG",
                     project_id := "11111111-1111-1111-1111-111111111111" }])
        { slug := some "acme", project_id := some "ENG", issue_id := none }
        none (fun z => z == "Asia/Kolkata")
        { is_authenticated := true, user_timezone := "Asia/Kolkata" }
        (Except.ok { status := 200, body := [] })).1
        = l1 ++ Event.handlerInvoked :: l2 ∧ ∃ ev ∈ l1, isTz ev = true :=
  C5_locale_before_handler _ _ _ _ _ _ (by decide)
